import Mathlib

/-!
Shallow embedding of the download-quota and PDF-generation pipeline of the
gomaner repository (routes/api.js and the router variants embedded in the
unnamed source parts), together with theorems settling the frozen claims.

The repository carries several near-duplicate variants of the router.  The
definitions below embed, separately where they differ:
  * `checkDownloadLimit`    — routes/api.js, first variant (no address
    normalization in the guest branch);
  * `checkDownloadLimitV2`  — routes/api.js, second variant (splits a
    comma-separated forwarded address and trims the first entry);
  * `checkDownloadLimitP1`  — the variant in the second unnamed part
    (same normalization as V2, different denial message);
  * `downloadHandler` / `runDownload`     — the GET /download route of the
    first variant (finish callback updates only user/guest counters);
  * `downloadHandlerP1` / `runDownloadP1` — the GET /download route of the
    second unnamed part (finish callback additionally increments the
    manga `downloads` statistic);
  * `stats` — GET /stats, first variant.
-/

namespace Gomaner

/-- Account record in the users collection (fields of models/User read by
the router: `_id`, `isPremium`, `downloadCount`). -/
structure Account where
  id : Nat
  isPremium : Bool
  downloadCount : Nat
  deriving Repr, DecidableEq

/-- Content unit: fields of models/Manga read or written by the download
pipeline (`_id`, `slug`, `title`, and the `downloads` statistic that the
second unnamed part's finish handler increments). -/
structure Manga where
  id : Nat
  slug : String
  title : String
  downloads : Nat
  deriving Repr, DecidableEq

/-- Chapter fields read by the download pipeline.  `images` is an `Option`
because a stored document may lack the field (the route guards with
`!chapter.images`). -/
structure Chapter where
  mangaId : Nat
  slug : String
  chapterIndex : String
  images : Option (List String)
  deriving Repr, DecidableEq

/-- The in-memory guest cache `const guestCache = new Map()`, modelled as an
association list from client-address key to count. -/
abbrev GuestCache := List (String × Nat)

/-- `guestCache.get k` -/
def gcGet : GuestCache → String → Option Nat
  | [], _ => none
  | (k', v) :: rest, k => if k' = k then some v else gcGet rest k

/-- `guestCache.set k v` -/
def gcSet : GuestCache → String → Nat → GuestCache
  | [], k, v => [(k, v)]
  | (k', v') :: rest, k, v =>
    if k' = k then (k, v) :: rest else (k', v') :: gcSet rest k v

/-- Count stored for a key, defaulting to 0 (`guestCache.get(ip) || 0`). -/
def gcCount (gc : GuestCache) (k : String) : Nat := (gcGet gc k).getD 0

/-- `User.findById` over the modelled collection. -/
def findAccountById : List Account → Nat → Option Account
  | [], _ => none
  | u :: rest, i => if u.id = i then some u else findAccountById rest i

/-- `Manga.findOne({ slug })` -/
def findMangaBySlug : List Manga → String → Option Manga
  | [], _ => none
  | m :: rest, s => if m.slug = s then some m else findMangaBySlug rest s

/-- `Chapter.findOne({ manga_id, slug })` -/
def findChapter : List Chapter → Nat → String → Option Chapter
  | [], _, _ => none
  | c :: rest, mid, s =>
    if c.mangaId = mid ∧ c.slug = s then some c else findChapter rest mid s

/-- The mutable state the router reads and writes: the users collection, the
in-process guest cache, and the manga/chapter collections. -/
structure World where
  users : List Account
  guestCache : GuestCache
  mangas : List Manga
  chapters : List Chapter
  deriving Repr, DecidableEq

/-- The request data the quota/download code looks at: `req.user` (set by the
auth middleware, carrying the account id), the `x-forwarded-for` header,
`req.socket.remoteAddress`, and the route parameters. -/
structure Request where
  userId : Option Nat
  xff : Option String
  remoteAddr : String
  slug : String
  chapterSlug : String
  deriving Repr, DecidableEq

/-- `req.headers['x-forwarded-for'] || req.socket.remoteAddress`: a missing
or empty header string is falsy in JS, so it falls back to the socket
address. -/
def rawClientIp (xff : Option String) (remote : String) : String :=
  match xff with
  | some s => if s = "" then remote else s
  | none => remote

/-- Characters before the first comma: `s.split(',')[0]` for a
single-character separator. -/
def beforeComma : List Char → List Char
  | [] => []
  | c :: rest => if c = ',' then [] else c :: beforeComma rest

/-- Leading-whitespace removal, one direction of `trim`. -/
def dropLeadingWs : List Char → List Char
  | [] => []
  | c :: rest => if c.isWhitespace then dropLeadingWs rest else c :: rest

/-- `s.trim()`: strip whitespace from both ends. -/
def jsTrim (s : String) : String :=
  ⟨dropLeadingWs ((dropLeadingWs s.data.reverse).reverse)⟩

/-- `ip.includes(',')` -/
def containsComma (s : String) : Bool := s.data.any (fun c => c = ',')

/-- Guest-address normalization of the second router variant:
`if (ip.includes(',')) ip = ip.split(',')[0].trim();`.  Note it fires only
when the value contains a comma. -/
def normalizeIp (ip : String) : String :=
  if containsComma ip then jsTrim ⟨beforeComma ip.data⟩ else ip

/-- `LIMIT_GUEST_IP` of the second variant and the second unnamed part. -/
def LIMIT_GUEST_IP : Nat := 10

/-- Decision of the `checkDownloadLimit` middleware: either a denial response
(`res.status(code).json(...)`) or `next()` with the context fields the
middleware leaves on `req` (`req.userDoc` for non-premium users,
`req.isGuest`/`req.clientIp` for guests, nothing for premium). -/
inductive Admission where
  | denied (status : Nat) (message : String)
  | allowPremium
  | allowRegistered (user : Account)
  | allowGuest (ip : String)
  deriving Repr, DecidableEq

/-- Whether the middleware denied the request. -/
def Admission.isDenied : Admission → Bool
  | .denied _ _ => true
  | _ => false

/-- `checkDownloadLimit`, first variant in routes/api.js.  State-passing: the
middleware only reads the world, and the returned world is what it leaves
behind. -/
def checkDownloadLimit (w : World) (req : Request) : Admission × World :=
  match req.userId with
  | some uid =>
    match findAccountById w.users uid with
    | none => (.denied 404 "User not found", w)
    | some user =>
      if user.isPremium then (.allowPremium, w)
      else if 50 ≤ user.downloadCount then
        (.denied 403 "Limit harian (50) tercapai. Upgrade Premium!", w)
      else (.allowRegistered user, w)
  | none =>
    let ip := rawClientIp req.xff req.remoteAddr
    let currentUsage := gcCount w.guestCache ip
    if 10 ≤ currentUsage then
      (.denied 403 "Limit Guest (10) tercapai. Silakan Login!", w)
    else (.allowGuest ip, w)

/-- `checkDownloadLimit`, second variant in routes/api.js: the guest branch
normalizes the forwarded address before keying the cache. -/
def checkDownloadLimitV2 (w : World) (req : Request) : Admission × World :=
  match req.userId with
  | some uid =>
    match findAccountById w.users uid with
    | none => (.denied 404 "User not found", w)
    | some user =>
      if user.isPremium then (.allowPremium, w)
      else if 50 ≤ user.downloadCount then
        (.denied 403 "Limit harian (50) tercapai. Upgrade Premium!", w)
      else (.allowRegistered user, w)
  | none =>
    let ip := normalizeIp (rawClientIp req.xff req.remoteAddr)
    let currentUsage := gcCount w.guestCache ip
    if LIMIT_GUEST_IP ≤ currentUsage then
      (.denied 403 "Limit Guest (10) tercapai. Silakan Login atau ganti IP!", w)
    else (.allowGuest ip, w)

/-- `checkDownloadLimit` of the second unnamed part: same normalization as
the second variant, its own denial messages. -/
def checkDownloadLimitP1 (w : World) (req : Request) : Admission × World :=
  match req.userId with
  | some uid =>
    match findAccountById w.users uid with
    | none => (.denied 404 "User not found", w)
    | some user =>
      if user.isPremium then (.allowPremium, w)
      else if 50 ≤ user.downloadCount then
        (.denied 403 "Limit harian akun (50) tercapai. Upgrade Premium!", w)
      else (.allowRegistered user, w)
  | none =>
    let ip := normalizeIp (rawClientIp req.xff req.remoteAddr)
    let currentUsage := gcCount w.guestCache ip
    if LIMIT_GUEST_IP ≤ currentUsage then
      (.denied 403 "Limit Guest (10) tercapai. Silakan Login untuk lanjut!", w)
    else (.allowGuest ip, w)

/-- Observable events of the download route, in order: response-header writes
and, per image URL, the fetch attempt and (on success) the appended page. -/
inductive Ev where
  | setHeader (name value : String)
  | fetchImage (url : String)
  | pageAdded (url : String)
  deriving Repr, DecidableEq

/-- Response of the download route: a JSON error (`errorResponse` /
middleware denial) or the streamed PDF with its headers and, identified by
their source URLs, the appended pages. -/
inductive Response where
  | json (status : Nat) (success : Bool) (message : String)
  | pdf (contentType : String) (contentDisposition : String) (pages : List String)
  deriving Repr, DecidableEq

/-- The context the middleware left on `req`, as captured by the
`res.on('finish')` closure: `req.userDoc` (registered), `req.isGuest` with
`req.clientIp` (guest), or neither (premium). -/
inductive ReqCtx where
  | premium
  | registered (user : Account)
  | guest (ip : String)
  deriving Repr, DecidableEq

/-- `manga.title.replace(/[^a-zA-Z0-9]/g, '-')`, one character at a time. -/
def sanitizeChar (c : Char) : Char :=
  if ('a' ≤ c ∧ c ≤ 'z') ∨ ('A' ≤ c ∧ c ≤ 'Z') ∨ ('0' ≤ c ∧ c ≤ '9') then c
  else '-'

/-- `const cleanTitle = manga.title.replace(/[^a-zA-Z0-9]/g, '-')` -/
def cleanTitle (title : String) : String := ⟨title.data.map sanitizeChar⟩

/-- The Content-Disposition header value
`attachment; filename="<cleanTitle>-Ch<chapter_index>.pdf"`. -/
def contentDisposition (title chapterIndex : String) : String :=
  "attachment; filename=\"" ++ cleanTitle title ++ "-Ch" ++ chapterIndex
    ++ ".pdf\""

/-- The per-image loop: fetch and transcode each URL inside a try/catch; on
success a page is appended, on failure the URL is skipped and the loop
continues.  `ok` is the deterministic fetch/transcode outcome per URL.  The
result lists the URLs whose pages made it into the document, in order. -/
def imageLoop (ok : String → Bool) : List String → List String
  | [] => []
  | url :: rest =>
    if ok url then url :: imageLoop ok rest else imageLoop ok rest

/-- Event trace of the per-image loop. -/
def imageTrace (ok : String → Bool) : List String → List Ev
  | [] => []
  | url :: rest =>
    Ev.fetchImage url ::
      ((if ok url then [Ev.pageAdded url] else []) ++ imageTrace ok rest)

/-- Outcome of one execution of the download route body: the response sent,
the event trace, and the `res.on('finish')` callback it registered, if any
(carrying the captured request context and the captured manga id). -/
structure DlOutcome where
  response : Response
  trace : List Ev
  finishCb : Option (ReqCtx × Nat)
  deriving Repr, DecidableEq

/-- Body of GET /download/:slug/:chapterSlug after admission (both variants
share it): manga lookup, chapter lookup, the images guard, header setup, the
image loop, and registration of the finish callback. -/
def downloadBody (w : World) (req : Request) (ok : String → Bool)
    (ctx : ReqCtx) : DlOutcome :=
  match findMangaBySlug w.mangas req.slug with
  | none => ⟨.json 404 false "Manga not found", [], none⟩
  | some manga =>
    match findChapter w.chapters manga.id req.chapterSlug with
    | none => ⟨.json 404 false "Images not found", [], none⟩
    | some ch =>
      match ch.images with
      | none => ⟨.json 404 false "Images not found", [], none⟩
      | some imgs =>
        match imgs with
        | [] => ⟨.json 404 false "Images not found", [], none⟩
        | _ :: _ =>
          { response := .pdf "application/pdf"
              (contentDisposition manga.title ch.chapterIndex)
              (imageLoop ok imgs)
            trace := Ev.setHeader "Content-Type" "application/pdf" ::
              Ev.setHeader "Content-Disposition"
                (contentDisposition manga.title ch.chapterIndex) ::
              imageTrace ok imgs
            finishCb := some (ctx, manga.id) }

/-- GET /download, first variant in routes/api.js: `checkDownloadLimit`
middleware, then the body. -/
def downloadHandler (w : World) (req : Request) (ok : String → Bool) :
    DlOutcome :=
  match (checkDownloadLimit w req).1 with
  | .denied s m => ⟨.json s false m, [], none⟩
  | .allowPremium => downloadBody w req ok .premium
  | .allowRegistered u => downloadBody w req ok (.registered u)
  | .allowGuest ip => downloadBody w req ok (.guest ip)

/-- GET /download of the second unnamed part: its own middleware variant,
same body. -/
def downloadHandlerP1 (w : World) (req : Request) (ok : String → Bool) :
    DlOutcome :=
  match (checkDownloadLimitP1 w req).1 with
  | .denied s m => ⟨.json s false m, [], none⟩
  | .allowPremium => downloadBody w req ok .premium
  | .allowRegistered u => downloadBody w req ok (.registered u)
  | .allowGuest ip => downloadBody w req ok (.guest ip)

/-- `User.findByIdAndUpdate(uid, { $inc: { downloadCount: 1 } })` -/
def incUserDownload (db : List Account) (uid : Nat) : List Account :=
  db.map (fun u =>
    if u.id = uid then { u with downloadCount := u.downloadCount + 1 } else u)

/-- `Manga.findByIdAndUpdate(mid, { $inc: { downloads: 1 } })` -/
def incMangaDownloads (ms : List Manga) (mid : Nat) : List Manga :=
  ms.map (fun m =>
    if m.id = mid then { m with downloads := m.downloads + 1 } else m)

/-- `findMangaById`: lookup by id, to observe the `downloads` statistic. -/
def findMangaById : List Manga → Nat → Option Manga
  | [], _ => none
  | m :: rest, i => if m.id = i then some m else findMangaById rest i

/-- The `res.on('finish')` callback of the routes/api.js first variant:
`$inc` the user's downloadCount, or bump the guest cache entry; nothing for
premium. -/
def finishCommit (w : World) (ctx : ReqCtx) : World :=
  match ctx with
  | .registered u => { w with users := incUserDownload w.users u.id }
  | .guest ip =>
    { w with guestCache :=
        gcSet w.guestCache ip (gcCount w.guestCache ip + 1) }
  | .premium => w

/-- The `res.on('finish')` callback of the second unnamed part: the same
user/guest update, then unconditionally
`Manga.findByIdAndUpdate(manga._id, { $inc: { downloads: 1 } })`. -/
def finishCommitP1 (w : World) (ctx : ReqCtx) (mid : Nat) : World :=
  let w1 := finishCommit w ctx
  { w1 with mangas := incMangaDownloads w1.mangas mid }

/-- One full request against the first-variant route.  `fin` records whether
the response stream reached its finish event; Node fires `finish` at most
once, so the registered callback runs once when `fin` and never otherwise.
Returns the final world, the outcome, and how many times the callback ran. -/
def runDownload (w : World) (req : Request) (ok : String → Bool)
    (fin : Bool) : World × DlOutcome × Nat :=
  let o := downloadHandler w req ok
  match o.finishCb with
  | none => (w, o, 0)
  | some (ctx, _) => if fin then (finishCommit w ctx, o, 1) else (w, o, 0)

/-- One full request against the second unnamed part's route. -/
def runDownloadP1 (w : World) (req : Request) (ok : String → Bool)
    (fin : Bool) : World × DlOutcome × Nat :=
  let o := downloadHandlerP1 w req ok
  match o.finishCb with
  | none => (w, o, 0)
  | some (ctx, mid) =>
    if fin then (finishCommitP1 w ctx mid, o, 1) else (w, o, 0)

/-- One queued request for a sequential run: request data, per-URL
fetch/transcode outcome, and whether its stream finished. -/
structure DlReq where
  req : Request
  ok : String → Bool
  fin : Bool

/-- Sequential execution of requests against the first-variant route. -/
def runSeq (w : World) : List DlReq → World
  | [] => w
  | r :: rest => runSeq (runDownload w r.req r.ok r.fin).1 rest

/-- The JSON `limit` field of GET /stats: a number, or the string "∞" for
premium. -/
inductive LimitVal where
  | num (n : Nat)
  | inf
  deriving Repr, DecidableEq

/-- The JSON body GET /stats returns. -/
structure StatsResp where
  type : String
  usage : Nat
  limit : LimitVal
  deriving Repr, DecidableEq

/-- GET /stats, first variant in routes/api.js.  `lookupThrows uid` models
the account lookup rejecting, which the surrounding try/catch turns into the
guest-zero fallback.  Note the guest branch keys the cache by the raw
forwarded address: this variant does not normalize. -/
def stats (lookupThrows : Nat → Bool) (w : World) (userId : Option Nat)
    (xff : Option String) (remote : String) : StatsResp :=
  match userId with
  | some uid =>
    if lookupThrows uid then ⟨"guest", 0, .num 10⟩
    else
      match findAccountById w.users uid with
      | none => ⟨"guest", 0, .num 10⟩
      | some u =>
        if u.isPremium then ⟨"premium", u.downloadCount, .inf⟩
        else ⟨"user", u.downloadCount, .num 50⟩
  | none =>
    ⟨"guest", gcCount w.guestCache (rawClientIp xff remote), .num 10⟩

/-! ### Helper lemmas -/

lemma checkDownloadLimit_snd (w : World) (req : Request) :
    (checkDownloadLimit w req).2 = w := by
  rcases req with ⟨userId, xff, remote, slug, cslug⟩
  rcases userId with _ | uid <;> simp only [checkDownloadLimit] <;>
    repeat' split
  all_goals rfl

lemma gcGet_gcSet_self (m : GuestCache) (k : String) (v : Nat) :
    gcGet (gcSet m k v) k = some v := by
  induction m with
  | nil => simp [gcGet, gcSet]
  | cons p rest ih =>
    obtain ⟨pk, pv⟩ := p
    by_cases h : pk = k
    · simp [gcGet, gcSet, h]
    · simp [gcGet, gcSet, h, ih]

lemma gcGet_gcSet_ne (m : GuestCache) (k k' : String) (v : Nat)
    (h : k' ≠ k) : gcGet (gcSet m k v) k' = gcGet m k' := by
  have h' : ¬(k = k') := fun e => h e.symm
  induction m with
  | nil => simp [gcGet, gcSet, h']
  | cons p rest ih =>
    obtain ⟨pk, pv⟩ := p
    by_cases hp : pk = k
    · subst hp
      simp [gcGet, gcSet, h']
    · simp [gcGet, gcSet, hp, ih]

lemma checkDownloadLimit_allowGuest {w : World} {req : Request} {ip : String}
    (h : (checkDownloadLimit w req).1 = .allowGuest ip) :
    req.userId = none ∧ ip = rawClientIp req.xff req.remoteAddr ∧
      gcCount w.guestCache ip < 10 := by
  simp only [checkDownloadLimit] at h
  split at h
  · split at h
    · simp at h
    · split at h
      · simp at h
      · split at h <;> simp at h
  · rename_i huid
    split at h
    · simp at h
    · rename_i hlt
      obtain rfl : rawClientIp req.xff req.remoteAddr = ip := by
        simpa using h
      exact ⟨huid, rfl, by omega⟩

lemma checkDownloadLimit_allowRegistered {w : World} {req : Request}
    {u : Account} (h : (checkDownloadLimit w req).1 = .allowRegistered u) :
    ∃ uid, req.userId = some uid ∧ findAccountById w.users uid = some u ∧
      u.isPremium = false ∧ u.downloadCount < 50 := by
  simp only [checkDownloadLimit] at h
  split at h
  · rename_i uid huid
    split at h
    · simp at h
    · rename_i u' hf
      split at h
      · simp at h
      · rename_i hprem
        split at h
        · simp at h
        · rename_i hcnt
          obtain rfl : u' = u := by simpa using h
          exact ⟨uid, huid, hf, by simpa using hprem, by omega⟩
  · split at h <;> simp at h

lemma downloadBody_finishCb {w : World} {req : Request} {ok : String → Bool}
    {ctx ctx' : ReqCtx} {mid : Nat}
    (h : (downloadBody w req ok ctx).finishCb = some (ctx', mid)) :
    ctx' = ctx := by
  unfold downloadBody at h
  split at h
  · simp at h
  · split at h
    · simp at h
    · split at h
      · simp at h
      · split at h
        · simp at h
        · simp only [Option.some.injEq, Prod.mk.injEq] at h
          exact h.1.symm

lemma downloadHandler_finishCb {w : World} {req : Request}
    {ok : String → Bool} {ctx : ReqCtx} {mid : Nat}
    (h : (downloadHandler w req ok).finishCb = some (ctx, mid)) :
    (ctx = .premium → (checkDownloadLimit w req).1 = .allowPremium) ∧
    (∀ u, ctx = .registered u →
      (checkDownloadLimit w req).1 = .allowRegistered u) ∧
    (∀ ip, ctx = .guest ip →
      (checkDownloadLimit w req).1 = .allowGuest ip) := by
  unfold downloadHandler at h
  split at h
  · simp at h
  · rename_i heq
    obtain rfl := downloadBody_finishCb h
    exact ⟨fun _ => heq, fun u hu => by simp at hu,
      fun ip hip => by simp at hip⟩
  · rename_i u heq
    obtain rfl := downloadBody_finishCb h
    refine ⟨fun hp => by simp at hp, fun u' hu => ?_,
      fun ip hip => by simp at hip⟩
    obtain rfl : u = u' := by simpa using hu
    exact heq
  · rename_i ip heq
    obtain rfl := downloadBody_finishCb h
    refine ⟨fun hp => by simp at hp, fun u hu => by simp at hu,
      fun ip' hip => ?_⟩
    obtain rfl : ip = ip' := by simpa using hip
    exact heq

lemma imageLoop_eq_filter (ok : String → Bool) (urls : List String) :
    imageLoop ok urls = urls.filter ok := by
  induction urls with
  | nil => rfl
  | cons u rest ih => by_cases h : ok u <;> simp [imageLoop, h, ih]

lemma imageLoop_length (ok : String → Bool) (urls : List String) :
    (imageLoop ok urls).length + (urls.filter (fun u => !(ok u))).length
      = urls.length := by
  induction urls with
  | nil => rfl
  | cons u rest ih => by_cases h : ok u <;> simp [imageLoop, h] <;> omega

lemma imageLoop_append (ok : String → Bool) (pre post : List String) :
    imageLoop ok (pre ++ post) = imageLoop ok pre ++ imageLoop ok post := by
  induction pre with
  | nil => rfl
  | cons u rest ih => by_cases h : ok u <;> simp [imageLoop, h, ih]

lemma setHeader_not_mem_imageTrace (ok : String → Bool) (urls : List String)
    (n v : String) : Ev.setHeader n v ∉ imageTrace ok urls := by
  induction urls with
  | nil => simp [imageTrace]
  | cons u rest ih => by_cases h : ok u <;> simp [imageTrace, h, ih]

lemma downloadHandler_not_denied {w : World} {req : Request}
    (ok : String → Bool)
    (hadm : ((checkDownloadLimit w req).1).isDenied = false) :
    ∃ ctx, downloadHandler w req ok = downloadBody w req ok ctx := by
  rcases h : (checkDownloadLimit w req).1 with ⟨s, m⟩ | _ | u | ip
  · rw [h] at hadm; simp [Admission.isDenied] at hadm
  · exact ⟨.premium, by unfold downloadHandler; rw [h]⟩
  · exact ⟨.registered u, by unfold downloadHandler; rw [h]⟩
  · exact ⟨.guest ip, by unfold downloadHandler; rw [h]⟩

lemma downloadBody_stream {w : World} {req : Request} {ok : String → Bool}
    {ctx : ReqCtx} {manga : Manga} {ch : Chapter} {imgs : List String}
    (hm : findMangaBySlug w.mangas req.slug = some manga)
    (hc : findChapter w.chapters manga.id req.chapterSlug = some ch)
    (hi : ch.images = some imgs) (hne : imgs ≠ []) :
    downloadBody w req ok ctx =
      { response := .pdf "application/pdf"
          (contentDisposition manga.title ch.chapterIndex) (imageLoop ok imgs)
        trace := Ev.setHeader "Content-Type" "application/pdf" ::
          Ev.setHeader "Content-Disposition"
            (contentDisposition manga.title ch.chapterIndex) ::
          imageTrace ok imgs
        finishCb := some (ctx, manga.id) } := by
  unfold downloadBody
  simp only [hm, hc, hi]
  cases imgs with
  | nil => exact absurd rfl hne
  | cons a rest => rfl

lemma downloadBody_no_chapter {w : World} {req : Request} {ok : String → Bool}
    {ctx : ReqCtx} {manga : Manga}
    (hm : findMangaBySlug w.mangas req.slug = some manga)
    (hc : findChapter w.chapters manga.id req.chapterSlug = none) :
    downloadBody w req ok ctx = ⟨.json 404 false "Images not found", [], none⟩
    := by
  unfold downloadBody
  simp only [hm, hc]

lemma downloadBody_images_none {w : World} {req : Request}
    {ok : String → Bool} {ctx : ReqCtx} {manga : Manga} {ch : Chapter}
    (hm : findMangaBySlug w.mangas req.slug = some manga)
    (hc : findChapter w.chapters manga.id req.chapterSlug = some ch)
    (hi : ch.images = none) :
    downloadBody w req ok ctx = ⟨.json 404 false "Images not found", [], none⟩
    := by
  unfold downloadBody
  simp only [hm, hc, hi]

lemma downloadBody_images_nil {w : World} {req : Request}
    {ok : String → Bool} {ctx : ReqCtx} {manga : Manga} {ch : Chapter}
    (hm : findMangaBySlug w.mangas req.slug = some manga)
    (hc : findChapter w.chapters manga.id req.chapterSlug = some ch)
    (hi : ch.images = some []) :
    downloadBody w req ok ctx = ⟨.json 404 false "Images not found", [], none⟩
    := by
  unfold downloadBody
  simp only [hm, hc, hi]

lemma downloadHandler_denied {w : World} {req : Request} {ok : String → Bool}
    {s : Nat} {m : String} (h : (checkDownloadLimit w req).1 = .denied s m) :
    downloadHandler w req ok = ⟨.json s false m, [], none⟩ := by
  unfold downloadHandler
  rw [h]

lemma runDownload_none {w : World} {req : Request} {ok : String → Bool}
    {fin : Bool} (hcb : (downloadHandler w req ok).finishCb = none) :
    runDownload w req ok fin = (w, downloadHandler w req ok, 0) := by
  unfold runDownload
  simp only [hcb]

lemma runDownload_some_true {w : World} {req : Request} {ok : String → Bool}
    {ctx : ReqCtx} {mid : Nat}
    (hcb : (downloadHandler w req ok).finishCb = some (ctx, mid)) :
    runDownload w req ok true
      = (finishCommit w ctx, downloadHandler w req ok, 1) := by
  unfold runDownload
  simp [hcb]

lemma runDownload_some_false {w : World} {req : Request} {ok : String → Bool}
    {ctx : ReqCtx} {mid : Nat}
    (hcb : (downloadHandler w req ok).finishCb = some (ctx, mid)) :
    runDownload w req ok false = (w, downloadHandler w req ok, 0) := by
  unfold runDownload
  simp [hcb]

lemma runDownloadP1_some_true {w : World} {req : Request} {ok : String → Bool}
    {ctx : ReqCtx} {mid : Nat}
    (hcb : (downloadHandlerP1 w req ok).finishCb = some (ctx, mid)) :
    runDownloadP1 w req ok true
      = (finishCommitP1 w ctx mid, downloadHandlerP1 w req ok, 1) := by
  unfold runDownloadP1
  simp [hcb]

lemma finishCommit_mangas (w : World) (ctx : ReqCtx) :
    (finishCommit w ctx).mangas = w.mangas := by
  cases ctx <;> rfl

lemma findAccountById_incUserDownload (db : List Account) (uid : Nat) :
    findAccountById (incUserDownload db uid) uid
      = (findAccountById db uid).map
          (fun a => { a with downloadCount := a.downloadCount + 1 }) := by
  induction db with
  | nil => rfl
  | cons a rest ih =>
    simp only [incUserDownload] at ih ⊢
    by_cases h : a.id = uid <;> simp [findAccountById, h, ih]

lemma findMangaById_incMangaDownloads (ms : List Manga) (mid : Nat) :
    findMangaById (incMangaDownloads ms mid) mid
      = (findMangaById ms mid).map
          (fun m => { m with downloads := m.downloads + 1 }) := by
  induction ms with
  | nil => rfl
  | cons m rest ih =>
    simp only [incMangaDownloads] at ih ⊢
    by_cases h : m.id = mid <;> simp [findMangaById, h, ih]

lemma downloadBody_finishCb_mid {w : World} {req : Request}
    {ok : String → Bool} {ctx ctx' : ReqCtx} {mid : Nat}
    (h : (downloadBody w req ok ctx).finishCb = some (ctx', mid)) :
    ∃ manga, findMangaBySlug w.mangas req.slug = some manga ∧ mid = manga.id
    := by
  unfold downloadBody at h
  split at h
  · simp at h
  · rename_i manga hm
    split at h
    · simp at h
    · split at h
      · simp at h
      · split at h
        · simp at h
        · simp only [Option.some.injEq, Prod.mk.injEq] at h
          exact ⟨manga, hm, h.2.symm⟩

lemma downloadHandlerP1_finishCb_mid {w : World} {req : Request}
    {ok : String → Bool} {ctx : ReqCtx} {mid : Nat}
    (h : (downloadHandlerP1 w req ok).finishCb = some (ctx, mid)) :
    ∃ manga, findMangaBySlug w.mangas req.slug = some manga ∧ mid = manga.id
    := by
  unfold downloadHandlerP1 at h
  split at h
  · simp at h
  all_goals exact downloadBody_finishCb_mid h

lemma runDownload_guestCache (w : World) (req : Request) (ok : String → Bool)
    (fin : Bool) :
    (runDownload w req ok fin).1.guestCache = w.guestCache ∨
    ∃ ip, (checkDownloadLimit w req).1 = .allowGuest ip ∧
      gcCount w.guestCache ip < 10 ∧
      (runDownload w req ok fin).1.guestCache
        = gcSet w.guestCache ip (gcCount w.guestCache ip + 1) := by
  rcases hcb : (downloadHandler w req ok).finishCb with _ | ⟨ctx, mid⟩
  · left; rw [runDownload_none hcb]
  · cases fin
    · left; rw [runDownload_some_false hcb]
    · cases ctx with
      | premium => left; rw [runDownload_some_true hcb]; rfl
      | registered u => left; rw [runDownload_some_true hcb]; rfl
      | guest ip =>
        right
        have hcls := (downloadHandler_finishCb hcb).2.2 ip rfl
        have hlt := (checkDownloadLimit_allowGuest hcls).2.2
        exact ⟨ip, hcls, hlt, by rw [runDownload_some_true hcb]; rfl⟩

lemma gcGet_mem {m : GuestCache} {k : String} {v : Nat}
    (h : gcGet m k = some v) : (k, v) ∈ m := by
  induction m with
  | nil => simp [gcGet] at h
  | cons q rest ih =>
    obtain ⟨qk, qv⟩ := q
    by_cases hk : qk = k
    · subst hk
      simp [gcGet] at h
      simp [h]
    · simp [gcGet, hk] at h
      exact List.mem_cons_of_mem _ (ih h)

lemma gcBounded_gcSet {m : GuestCache} {k : String} {v : Nat}
    (hm : ∀ p ∈ m, p.2 ≤ 10) (hv : v ≤ 10) :
    ∀ p ∈ gcSet m k v, p.2 ≤ 10 := by
  induction m with
  | nil =>
    intro p hp
    simp [gcSet] at hp
    simp [hp, hv]
  | cons q rest ih =>
    intro p hp
    obtain ⟨qk, qv⟩ := q
    by_cases h : qk = k
    · simp [gcSet, h] at hp
      rcases hp with hp | hp
      · simp [hp, hv]
      · exact hm p (List.mem_cons_of_mem _ hp)
    · simp only [gcSet, if_neg h, List.mem_cons] at hp
      rcases hp with hp | hp
      · exact hm p (by simp [hp])
      · exact ih (fun q hq => hm q (List.mem_cons_of_mem _ hq)) p hp

lemma runDownload_preserves_bounded {w : World} {req : Request}
    {ok : String → Bool} {fin : Bool}
    (hb : ∀ p ∈ w.guestCache, p.2 ≤ 10) :
    ∀ p ∈ (runDownload w req ok fin).1.guestCache, p.2 ≤ 10 := by
  rcases runDownload_guestCache w req ok fin with h | ⟨ip, _, hlt, h⟩
  · rw [h]; exact hb
  · rw [h]; exact gcBounded_gcSet hb (by omega)

lemma runSeq_preserves_bounded (reqs : List DlReq) : ∀ w : World,
    (∀ p ∈ w.guestCache, p.2 ≤ 10) →
    ∀ p ∈ (runSeq w reqs).guestCache, p.2 ≤ 10 := by
  induction reqs with
  | nil => intro w hb; simpa [runSeq] using hb
  | cons r rest ih =>
    intro w hb
    simp only [runSeq]
    exact ih _ (runDownload_preserves_bounded hb)

/-! ### Claims -/

/-- C1: for every authenticated request, `checkDownloadLimit` decides
admission exactly as: no account record → denied 404; premium flag →
admitted into the premium bucket regardless of the stored download count;
otherwise a count ≥ 50 → denied 403; otherwise admitted into the registered
bucket carrying the account record. -/
theorem claim_C1_authenticated_classifier (w : World) (req : Request)
    (uid : Nat) (h : req.userId = some uid) :
    (findAccountById w.users uid = none →
      (checkDownloadLimit w req).1 = .denied 404 "User not found") ∧
    (∀ u, findAccountById w.users uid = some u → u.isPremium = true →
      (checkDownloadLimit w req).1 = .allowPremium) ∧
    (∀ u, findAccountById w.users uid = some u → u.isPremium = false →
      50 ≤ u.downloadCount →
      (checkDownloadLimit w req).1
        = .denied 403 "Limit harian (50) tercapai. Upgrade Premium!") ∧
    (∀ u, findAccountById w.users uid = some u → u.isPremium = false →
      u.downloadCount < 50 →
      (checkDownloadLimit w req).1 = .allowRegistered u) := by
  refine ⟨fun hn => ?_, fun u hu hp => ?_, fun u hu hp hc => ?_,
    fun u hu hp hc => ?_⟩
  · simp [checkDownloadLimit, h, hn]
  · simp [checkDownloadLimit, h, hu, hp]
  · simp [checkDownloadLimit, h, hu, hp, hc]
  · simp [checkDownloadLimit, h, hu, hp, Nat.not_le.mpr hc]

/-- Witness for C1 on a concrete ledger: a missing account, a premium
account with a huge count, a premium account with count 0, an account at the
50-limit, and an account below it. -/
theorem claim_C1_witness :
    ((checkDownloadLimit
        ⟨[⟨1, true, 1000000⟩, ⟨2, true, 0⟩, ⟨3, false, 50⟩, ⟨4, false, 49⟩],
          [], [], []⟩ ⟨some 9, none, "r", "s", "c"⟩).1
      = .denied 404 "User not found") ∧
    ((checkDownloadLimit
        ⟨[⟨1, true, 1000000⟩, ⟨2, true, 0⟩, ⟨3, false, 50⟩, ⟨4, false, 49⟩],
          [], [], []⟩ ⟨some 1, none, "r", "s", "c"⟩).1 = .allowPremium) ∧
    ((checkDownloadLimit
        ⟨[⟨1, true, 1000000⟩, ⟨2, true, 0⟩, ⟨3, false, 50⟩, ⟨4, false, 49⟩],
          [], [], []⟩ ⟨some 2, none, "r", "s", "c"⟩).1 = .allowPremium) ∧
    ((checkDownloadLimit
        ⟨[⟨1, true, 1000000⟩, ⟨2, true, 0⟩, ⟨3, false, 50⟩, ⟨4, false, 49⟩],
          [], [], []⟩ ⟨some 3, none, "r", "s", "c"⟩).1
      = .denied 403 "Limit harian (50) tercapai. Upgrade Premium!") ∧
    ((checkDownloadLimit
        ⟨[⟨1, true, 1000000⟩, ⟨2, true, 0⟩, ⟨3, false, 50⟩, ⟨4, false, 49⟩],
          [], [], []⟩ ⟨some 4, none, "r", "s", "c"⟩).1
      = .allowRegistered ⟨4, false, 49⟩) := by
  refine ⟨?_, ?_, ?_, ?_, ?_⟩
  · exact (claim_C1_authenticated_classifier _ _ 9 rfl).1 (by decide)
  · exact (claim_C1_authenticated_classifier _ _ 1 rfl).2.1
      ⟨1, true, 1000000⟩ (by decide) rfl
  · exact (claim_C1_authenticated_classifier _ _ 2 rfl).2.1
      ⟨2, true, 0⟩ (by decide) rfl
  · exact (claim_C1_authenticated_classifier _ _ 3 rfl).2.2.1
      ⟨3, false, 50⟩ (by decide) rfl (by decide)
  · exact (claim_C1_authenticated_classifier _ _ 4 rfl).2.2.2
      ⟨4, false, 49⟩ (by decide) rfl (by decide)

/-- C8: classification is side-effect free and idempotent — the middleware
returns the world unchanged (in particular the guest counter map and the
account records), and running it twice yields the same admission. -/
theorem claim_C8_classifier_pure_idempotent (w : World) (req : Request) :
    (checkDownloadLimit w req).2 = w ∧
    (checkDownloadLimit (checkDownloadLimit w req).2 req).1
      = (checkDownloadLimit w req).1 ∧
    (checkDownloadLimit w req).2.guestCache = w.guestCache ∧
    (checkDownloadLimit w req).2.users = w.users := by
  have h := checkDownloadLimit_snd w req
  exact ⟨h, by rw [h], by rw [h], by rw [h]⟩

/-- C3 counterexample: in the first `checkDownloadLimit` variant (the cited
guest branch of routes/api.js) no normalization happens.  With the guest
counter for "203.0.113.5" already at 10, a request forwarded as
"203.0.113.5, 70.41.3.18" is admitted — keyed by the raw header value — where
the claim says it is counted under "203.0.113.5" and denied with 403. -/
theorem claim_C3_counterexample :
    ((checkDownloadLimit ⟨[], [("203.0.113.5", 10)], [], []⟩
        ⟨none, some "203.0.113.5, 70.41.3.18", "9.9.9.9", "s", "c"⟩).1
      = .allowGuest "203.0.113.5, 70.41.3.18") ∧
    ((checkDownloadLimit ⟨[], [("203.0.113.5", 10)], [], []⟩
        ⟨none, some "203.0.113.5, 70.41.3.18", "9.9.9.9", "s", "c"⟩).1.isDenied
      = false) ∧
    gcCount [("203.0.113.5", 10)] "203.0.113.5" = 10 ∧
    normalizeIp "203.0.113.5, 70.41.3.18" = "203.0.113.5" := by decide

/-- C3 amended: the second `checkDownloadLimit` variant keys the guest
counter by the forwarded address normalized by taking the first entry of a
comma-separated list and trimming it (applied only when the value contains a
comma), so "203.0.113.5, 70.41.3.18" is keyed "203.0.113.5"; the first
variant applies no normalization and keys by the raw value.  In both, the
request is denied with 403 exactly when the counter for that variant's key
(default 0) is ≥ 10. -/
theorem claim_C3_amended_guest_keying (w : World) (req : Request)
    (h : req.userId = none) :
    normalizeIp "203.0.113.5, 70.41.3.18" = "203.0.113.5" ∧
    ((checkDownloadLimitV2 w req).1 =
      if 10 ≤ gcCount w.guestCache
          (normalizeIp (rawClientIp req.xff req.remoteAddr)) then
        .denied 403 "Limit Guest (10) tercapai. Silakan Login atau ganti IP!"
      else .allowGuest (normalizeIp (rawClientIp req.xff req.remoteAddr))) ∧
    ((checkDownloadLimit w req).1 =
      if 10 ≤ gcCount w.guestCache (rawClientIp req.xff req.remoteAddr) then
        .denied 403 "Limit Guest (10) tercapai. Silakan Login!"
      else .allowGuest (rawClientIp req.xff req.remoteAddr)) := by
  refine ⟨by decide, ?_, ?_⟩
  · simp only [checkDownloadLimitV2, h, LIMIT_GUEST_IP]
    split <;> rfl
  · simp only [checkDownloadLimit, h]
    split <;> rfl

/-- Witness for C3's amended statement: the normalized key is at its limit,
so the second variant denies while the first variant (raw key, count 0)
admits. -/
theorem claim_C3_amended_witness :
    ((checkDownloadLimitV2 ⟨[], [("203.0.113.5", 10)], [], []⟩
        ⟨none, some "203.0.113.5, 70.41.3.18", "9.9.9.9", "s", "c"⟩).1
      = .denied 403 "Limit Guest (10) tercapai. Silakan Login atau ganti IP!")
    ∧
    ((checkDownloadLimit ⟨[], [("203.0.113.5", 10)], [], []⟩
        ⟨none, some "203.0.113.5, 70.41.3.18", "9.9.9.9", "s", "c"⟩).1
      = .allowGuest "203.0.113.5, 70.41.3.18") := by
  have h := claim_C3_amended_guest_keying
    ⟨[], [("203.0.113.5", 10)], [], []⟩
    ⟨none, some "203.0.113.5, 70.41.3.18", "9.9.9.9", "s", "c"⟩ rfl
  refine ⟨?_, ?_⟩
  · rw [h.2.1]; decide
  · rw [h.2.2]; decide

/-- C6 counterexample: the cited GET /stats (first variant) keys the guest
counter by the raw forwarded value.  With the counter for the normalized
address "203.0.113.5" at 7, it reports usage 0, where the claim says usage is
the counter for the normalized client address (7). -/
theorem claim_C6_counterexample :
    stats (fun _ => false) ⟨[], [("203.0.113.5", 7)], [], []⟩ none
        (some "203.0.113.5, 70.41.3.18") "9.9.9.9"
      = ⟨"guest", 0, .num 10⟩ ∧
    gcCount [("203.0.113.5", 7)] (normalizeIp "203.0.113.5, 70.41.3.18")
      = 7 := by decide

/-- C6 amended: GET /stats (first variant) never errors — it always returns
one of the three bucket shapes: "premium" with limit ∞, "user" with limit 50
(usage = the account's downloadCount), or "guest" with limit 10, the guest
usage being the counter for the *raw* client address (forwarded header value
as-is, else socket address), default 0; on an account-lookup failure it falls
back to the guest-zero response. -/
theorem claim_C6_amended_stats (lookupThrows : Nat → Bool) (w : World)
    (userId : Option Nat) (xff : Option String) (remote : String) :
    ((stats lookupThrows w userId xff remote).type = "guest" ∨
     (stats lookupThrows w userId xff remote).type = "user" ∨
     (stats lookupThrows w userId xff remote).type = "premium") ∧
    (userId = none → stats lookupThrows w userId xff remote
      = ⟨"guest", gcCount w.guestCache (rawClientIp xff remote), .num 10⟩) ∧
    (∀ uid, userId = some uid → lookupThrows uid = true →
      stats lookupThrows w userId xff remote = ⟨"guest", 0, .num 10⟩) ∧
    (∀ uid, userId = some uid → lookupThrows uid = false →
      findAccountById w.users uid = none →
      stats lookupThrows w userId xff remote = ⟨"guest", 0, .num 10⟩) ∧
    (∀ uid u, userId = some uid → lookupThrows uid = false →
      findAccountById w.users uid = some u → u.isPremium = true →
      stats lookupThrows w userId xff remote
        = ⟨"premium", u.downloadCount, .inf⟩) ∧
    (∀ uid u, userId = some uid → lookupThrows uid = false →
      findAccountById w.users uid = some u → u.isPremium = false →
      stats lookupThrows w userId xff remote
        = ⟨"user", u.downloadCount, .num 50⟩) := by
  refine ⟨?_, fun hn => ?_, fun uid hu ht => ?_, fun uid hu ht hf => ?_,
    fun uid u hu ht hf hp => ?_, fun uid u hu ht hf hp => ?_⟩
  · rcases userId with _ | uid
    · left; rfl
    · by_cases ht : lookupThrows uid
      · left; simp [stats, ht]
      · rcases hf : findAccountById w.users uid with _ | u
        · left; simp [stats, ht, hf]
        · by_cases hp : u.isPremium
          · right; right; simp [stats, ht, hf, hp]
          · right; left; simp [stats, ht, hf, hp]
  · simp [stats, hn]
  · simp [stats, hu, ht]
  · simp [stats, hu, ht, hf]
  · simp [stats, hu, ht, hf, hp]
  · simp [stats, hu, ht, hf, hp]

/-- Witness for C6's amended statement on concrete data: an anonymous
caller, a throwing lookup, a premium account and a regular account. -/
theorem claim_C6_amended_witness :
    (stats (fun _ => false) ⟨[⟨1, true, 123⟩, ⟨2, false, 3⟩], [("a", 4)], [], []⟩
        none (some "a") "r" = ⟨"guest", 4, .num 10⟩) ∧
    (stats (fun _ => true) ⟨[⟨1, true, 123⟩, ⟨2, false, 3⟩], [("a", 4)], [], []⟩
        (some 1) none "r" = ⟨"guest", 0, .num 10⟩) ∧
    (stats (fun _ => false) ⟨[⟨1, true, 123⟩, ⟨2, false, 3⟩], [("a", 4)], [], []⟩
        (some 1) none "r" = ⟨"premium", 123, .inf⟩) ∧
    (stats (fun _ => false) ⟨[⟨1, true, 123⟩, ⟨2, false, 3⟩], [("a", 4)], [], []⟩
        (some 2) none "r" = ⟨"user", 3, .num 50⟩) := by
  refine ⟨?_, ?_, ?_, ?_⟩
  · have h := (claim_C6_amended_stats (fun _ => false)
      ⟨[⟨1, true, 123⟩, ⟨2, false, 3⟩], [("a", 4)], [], []⟩ none (some "a")
      "r").2.1 rfl
    rw [h]; decide
  · exact (claim_C6_amended_stats (fun _ => true)
      ⟨[⟨1, true, 123⟩, ⟨2, false, 3⟩], [("a", 4)], [], []⟩ (some 1) none
      "r").2.2.1 1 rfl rfl
  · exact (claim_C6_amended_stats (fun _ => false)
      ⟨[⟨1, true, 123⟩, ⟨2, false, 3⟩], [("a", 4)], [], []⟩ (some 1) none
      "r").2.2.2.2.1 1 ⟨1, true, 123⟩ rfl rfl (by decide) rfl
  · exact (claim_C6_amended_stats (fun _ => false)
      ⟨[⟨1, true, 123⟩, ⟨2, false, 3⟩], [("a", 4)], [], []⟩ (some 2) none
      "r").2.2.2.2.2 2 ⟨2, false, 3⟩ rfl rfl (by decide) rfl

/-- C5: for every ordered list of image URLs with a deterministic set of
fetch/transcode failures, the assembled page list is exactly the surviving
URLs in source order, its length plus the number of failures is the URL
count, it is a sublist of the source order (no placeholder page for a
skipped image, no reordering), and a per-image failure never aborts the
processing of the remaining URLs (the loop distributes over append). -/
theorem claim_C5_page_order (ok : String → Bool) (urls : List String) :
    imageLoop ok urls = urls.filter ok ∧
    (imageLoop ok urls).length + (urls.filter (fun u => !(ok u))).length
      = urls.length ∧
    List.Sublist (imageLoop ok urls) urls ∧
    (∀ pre post, imageLoop ok (pre ++ post)
      = imageLoop ok pre ++ imageLoop ok post) ∧
    (∀ u ∈ imageLoop ok urls, ok u = true) := by
  refine ⟨imageLoop_eq_filter ok urls, imageLoop_length ok urls, ?_,
    imageLoop_append ok, ?_⟩
  · rw [imageLoop_eq_filter]
    exact List.filter_sublist urls
  · intro u hu
    rw [imageLoop_eq_filter] at hu
    exact List.of_mem_filter hu

/-- C7: for every admitted download that reaches the streaming stage, the
response carries Content-Type application/pdf and a Content-Disposition
whose filename is the title with every character outside [A-Za-z0-9]
replaced by a hyphen, followed by "-Ch", the chapter index, and ".pdf"; both
header writes precede every fetch and page event in the trace. -/
theorem claim_C7_headers_and_filename (w : World) (req : Request)
    (ok : String → Bool) (manga : Manga) (ch : Chapter) (imgs : List String)
    (hadm : ((checkDownloadLimit w req).1).isDenied = false)
    (hm : findMangaBySlug w.mangas req.slug = some manga)
    (hc : findChapter w.chapters manga.id req.chapterSlug = some ch)
    (hi : ch.images = some imgs) (hne : imgs ≠ []) :
    (downloadHandler w req ok).response
      = .pdf "application/pdf"
          (contentDisposition manga.title ch.chapterIndex)
          (imageLoop ok imgs) ∧
    contentDisposition manga.title ch.chapterIndex
      = "attachment; filename=\"" ++ (⟨manga.title.data.map sanitizeChar⟩ : String)
          ++ "-Ch" ++ ch.chapterIndex ++ ".pdf\"" ∧
    (downloadHandler w req ok).trace
      = Ev.setHeader "Content-Type" "application/pdf" ::
        Ev.setHeader "Content-Disposition"
          (contentDisposition manga.title ch.chapterIndex) ::
        imageTrace ok imgs ∧
    (∀ n v, Ev.setHeader n v ∉ imageTrace ok imgs) := by
  obtain ⟨ctx, hh⟩ := downloadHandler_not_denied ok hadm
  rw [hh, downloadBody_stream hm hc hi hne]
  exact ⟨rfl, rfl, rfl, fun n v => setHeader_not_mem_imageTrace ok imgs n v⟩

/-- Witness for C7: a concrete admitted guest download of a two-image
chapter of the manga titled "My Manga! 2". -/
theorem claim_C7_witness :
    (downloadHandler
        ⟨[], [], [⟨1, "solo", "My Manga! 2", 0⟩],
          [⟨1, "ch-1", "1", some ["u1", "u2"]⟩]⟩
        ⟨none, some "1.2.3.4", "9.9.9.9", "solo", "ch-1"⟩
        (fun _ => true)).response
      = .pdf "application/pdf" (contentDisposition "My Manga! 2" "1")
          (imageLoop (fun _ => true) ["u1", "u2"]) ∧
    contentDisposition "My Manga! 2" "1"
      = "attachment; filename=\"My-Manga--2-Ch1.pdf\"" := by
  have h := claim_C7_headers_and_filename
    ⟨[], [], [⟨1, "solo", "My Manga! 2", 0⟩],
      [⟨1, "ch-1", "1", some ["u1", "u2"]⟩]⟩
    ⟨none, some "1.2.3.4", "9.9.9.9", "solo", "ch-1"⟩ (fun _ => true)
    ⟨1, "solo", "My Manga! 2", 0⟩ ⟨1, "ch-1", "1", some ["u1", "u2"]⟩
    ["u1", "u2"] (by decide) (by decide) (by decide) rfl (by decide)
  exact ⟨h.1, by decide⟩

/-- C9: for an admitted request whose manga is found, a missing chapter, a
chapter without an image list, or an empty image list yields the 404 JSON
"Images not found" with an empty trace (no header writes, no fetches, no
pages) and no finish callback; and a zero-page PDF response can only arise
from a non-empty image list on which every fetch/transcode failed. -/
theorem claim_C9_images_guard (w : World) (req : Request)
    (ok : String → Bool) (manga : Manga)
    (hadm : ((checkDownloadLimit w req).1).isDenied = false)
    (hm : findMangaBySlug w.mangas req.slug = some manga) :
    ((findChapter w.chapters manga.id req.chapterSlug = none ∨
      (∃ ch, findChapter w.chapters manga.id req.chapterSlug = some ch ∧
        (ch.images = none ∨ ch.images = some []))) →
      (downloadHandler w req ok).response = .json 404 false "Images not found"
        ∧ (downloadHandler w req ok).trace = []
        ∧ (downloadHandler w req ok).finishCb = none) ∧
    (∀ ct cd, (downloadHandler w req ok).response = .pdf ct cd [] →
      ∃ ch imgs, findChapter w.chapters manga.id req.chapterSlug = some ch ∧
        ch.images = some imgs ∧ imgs ≠ [] ∧ imageLoop ok imgs = []) := by
  obtain ⟨ctx, hh⟩ := downloadHandler_not_denied ok hadm
  constructor
  · intro hbad
    rcases hbad with hc | ⟨ch, hc, hi | hi⟩
    · rw [hh, downloadBody_no_chapter hm hc]
      exact ⟨rfl, rfl, rfl⟩
    · rw [hh, downloadBody_images_none hm hc hi]
      exact ⟨rfl, rfl, rfl⟩
    · rw [hh, downloadBody_images_nil hm hc hi]
      exact ⟨rfl, rfl, rfl⟩
  · intro ct cd hp
    rw [hh] at hp
    rcases hc : findChapter w.chapters manga.id req.chapterSlug with _ | ch
    · rw [downloadBody_no_chapter hm hc] at hp
      simp at hp
    · rcases hi : ch.images with _ | imgs
      · rw [downloadBody_images_none hm hc hi] at hp
        simp at hp
      · rcases himgs : imgs with _ | ⟨a, rest⟩
        · rw [downloadBody_images_nil hm hc (himgs ▸ hi)] at hp
          simp at hp
        · rw [downloadBody_stream hm hc (himgs ▸ hi) (by simp)] at hp
          simp only [Response.pdf.injEq] at hp
          exact ⟨ch, a :: rest, rfl, himgs ▸ hi, by simp, hp.2.2⟩

/-- Witness for C9: a chapter stored with an empty image list is answered
with the 404 JSON before any work happens. -/
theorem claim_C9_witness :
    (downloadHandler ⟨[], [], [⟨1, "solo", "T", 0⟩], [⟨1, "ch-1", "1", some []⟩]⟩
        ⟨none, some "1.2.3.4", "9.9.9.9", "solo", "ch-1"⟩
        (fun _ => true)).response
      = .json 404 false "Images not found" ∧
    (downloadHandler ⟨[], [], [⟨1, "solo", "T", 0⟩], [⟨1, "ch-1", "1", some []⟩]⟩
        ⟨none, some "1.2.3.4", "9.9.9.9", "solo", "ch-1"⟩
        (fun _ => true)).trace = [] := by
  have h := (claim_C9_images_guard
    ⟨[], [], [⟨1, "solo", "T", 0⟩], [⟨1, "ch-1", "1", some []⟩]⟩
    ⟨none, some "1.2.3.4", "9.9.9.9", "solo", "ch-1"⟩ (fun _ => true)
    ⟨1, "solo", "T", 0⟩ (by decide) (by decide)).1
    (Or.inr ⟨⟨1, "ch-1", "1", some []⟩, by decide, Or.inr rfl⟩)
  exact ⟨h.1, h.2.1⟩

/-- C2: the completion committer runs at most once per request, never when
the classifier denied, only when the stream finished; when it runs it
increments the registered account's downloadCount by exactly 1, or the guest
counter for the captured client address by exactly 1 (leaving all other
state alone), and premium requests mutate nothing. -/
theorem claim_C2_completion_committer (w : World) (req : Request)
    (ok : String → Bool) (fin : Bool) :
    (runDownload w req ok fin).2.2 ≤ 1 ∧
    (∀ s m, (checkDownloadLimit w req).1 = .denied s m →
      (downloadHandler w req ok).finishCb = none ∧
      (runDownload w req ok fin).1 = w ∧
      (runDownload w req ok fin).2.2 = 0) ∧
    (fin = false → (runDownload w req ok fin).1 = w ∧
      (runDownload w req ok fin).2.2 = 0) ∧
    ((downloadHandler w req ok).finishCb = none →
      (runDownload w req ok fin).1 = w ∧
      (runDownload w req ok fin).2.2 = 0) ∧
    (∀ mid, (downloadHandler w req ok).finishCb = some (.premium, mid) →
      (runDownload w req ok fin).1 = w ∧
      (checkDownloadLimit w req).1 = .allowPremium) ∧
    (∀ u mid, fin = true →
      (downloadHandler w req ok).finishCb = some (.registered u, mid) →
      (runDownload w req ok fin).1.users = incUserDownload w.users u.id ∧
      findAccountById (runDownload w req ok fin).1.users u.id
        = (findAccountById w.users u.id).map
            (fun a => { a with downloadCount := a.downloadCount + 1 }) ∧
      (runDownload w req ok fin).1.guestCache = w.guestCache ∧
      (runDownload w req ok fin).1.mangas = w.mangas ∧
      (runDownload w req ok fin).2.2 = 1 ∧
      (checkDownloadLimit w req).1 = .allowRegistered u) ∧
    (∀ ip mid, fin = true →
      (downloadHandler w req ok).finishCb = some (.guest ip, mid) →
      gcCount (runDownload w req ok fin).1.guestCache ip
        = gcCount w.guestCache ip + 1 ∧
      (∀ k, k ≠ ip → gcGet (runDownload w req ok fin).1.guestCache k
        = gcGet w.guestCache k) ∧
      (runDownload w req ok fin).1.users = w.users ∧
      (runDownload w req ok fin).1.mangas = w.mangas ∧
      (runDownload w req ok fin).2.2 = 1 ∧
      (checkDownloadLimit w req).1 = .allowGuest ip) := by
  refine ⟨?_, ?_, ?_, ?_, ?_, ?_, ?_⟩
  · rcases hcb : (downloadHandler w req ok).finishCb with _ | ⟨ctx, mid⟩
    · rw [runDownload_none hcb]; exact Nat.zero_le 1
    · cases fin
      · rw [runDownload_some_false hcb]; exact Nat.zero_le 1
      · rw [runDownload_some_true hcb]
  · intro s m hd
    have hcb : (downloadHandler w req ok).finishCb = none := by
      rw [downloadHandler_denied hd]
    exact ⟨hcb, by rw [runDownload_none hcb], by rw [runDownload_none hcb]⟩
  · intro hf
    subst hf
    rcases hcb : (downloadHandler w req ok).finishCb with _ | ⟨ctx, mid⟩
    · exact ⟨by rw [runDownload_none hcb], by rw [runDownload_none hcb]⟩
    · exact ⟨by rw [runDownload_some_false hcb],
        by rw [runDownload_some_false hcb]⟩
  · intro hcb
    exact ⟨by rw [runDownload_none hcb], by rw [runDownload_none hcb]⟩
  · intro mid hcb
    refine ⟨?_, (downloadHandler_finishCb hcb).1 rfl⟩
    cases fin
    · rw [runDownload_some_false hcb]
    · rw [runDownload_some_true hcb]; rfl
  · intro u mid hf hcb
    subst hf
    rw [runDownload_some_true hcb]
    refine ⟨rfl, ?_, rfl, rfl, rfl,
      (downloadHandler_finishCb hcb).2.1 u rfl⟩
    exact findAccountById_incUserDownload w.users u.id
  · intro ip mid hf hcb
    subst hf
    rw [runDownload_some_true hcb]
    refine ⟨?_, ?_, rfl, rfl, rfl, (downloadHandler_finishCb hcb).2.2 ip rfl⟩
    · simp [gcCount, finishCommit, gcGet_gcSet_self]
    · intro k hk
      show gcGet (gcSet w.guestCache ip (gcCount w.guestCache ip + 1)) k
        = gcGet w.guestCache k
      exact gcGet_gcSet_ne w.guestCache ip k _ hk

/-- Witness for C2 on concrete data: a finished guest download increments
only its own counter and reports one commit; a finished registered download
increments that account's count to 4; an unfinished stream commits nothing.
-/
theorem claim_C2_witness :
    gcCount (runDownload
        ⟨[⟨7, false, 3⟩], [], [⟨1, "s", "T", 0⟩], [⟨1, "c", "1", some ["u"]⟩]⟩
        ⟨none, some "1.2.3.4", "r", "s", "c"⟩ (fun _ => true)
        true).1.guestCache "1.2.3.4"
      = gcCount [] "1.2.3.4" + 1 ∧
    (runDownload
        ⟨[⟨7, false, 3⟩], [], [⟨1, "s", "T", 0⟩], [⟨1, "c", "1", some ["u"]⟩]⟩
        ⟨none, some "1.2.3.4", "r", "s", "c"⟩ (fun _ => true) true).1.users
      = [⟨7, false, 3⟩] ∧
    (runDownload
        ⟨[⟨7, false, 3⟩], [], [⟨1, "s", "T", 0⟩], [⟨1, "c", "1", some ["u"]⟩]⟩
        ⟨none, some "1.2.3.4", "r", "s", "c"⟩ (fun _ => true) true).2.2 = 1 ∧
    findAccountById (runDownload
        ⟨[⟨7, false, 3⟩], [], [⟨1, "s", "T", 0⟩], [⟨1, "c", "1", some ["u"]⟩]⟩
        ⟨some 7, none, "r", "s", "c"⟩ (fun _ => true) true).1.users 7
      = some ⟨7, false, 4⟩ ∧
    (runDownload
        ⟨[⟨7, false, 3⟩], [], [⟨1, "s", "T", 0⟩], [⟨1, "c", "1", some ["u"]⟩]⟩
        ⟨none, some "1.2.3.4", "r", "s", "c"⟩ (fun _ => true) false).1
      = ⟨[⟨7, false, 3⟩], [], [⟨1, "s", "T", 0⟩], [⟨1, "c", "1", some ["u"]⟩]⟩
    := by
  have hg := (claim_C2_completion_committer
    ⟨[⟨7, false, 3⟩], [], [⟨1, "s", "T", 0⟩], [⟨1, "c", "1", some ["u"]⟩]⟩
    ⟨none, some "1.2.3.4", "r", "s", "c"⟩ (fun _ => true)
    true).2.2.2.2.2.2 "1.2.3.4" 1 rfl (by decide)
  have hr := (claim_C2_completion_committer
    ⟨[⟨7, false, 3⟩], [], [⟨1, "s", "T", 0⟩], [⟨1, "c", "1", some ["u"]⟩]⟩
    ⟨some 7, none, "r", "s", "c"⟩ (fun _ => true)
    true).2.2.2.2.2.1 ⟨7, false, 3⟩ 1 rfl (by decide)
  have hu := (claim_C2_completion_committer
    ⟨[⟨7, false, 3⟩], [], [⟨1, "s", "T", 0⟩], [⟨1, "c", "1", some ["u"]⟩]⟩
    ⟨none, some "1.2.3.4", "r", "s", "c"⟩ (fun _ => true) false).2.2.1 rfl
  refine ⟨hg.1, hg.2.2.1, hg.2.2.2.2.1, ?_, hu.1⟩
  rw [hr.2.1]
  decide

/-- C4 counterexample: against the routes/api.js download route (the cited
finish handler at api.js:435-446), a fully streamed, committed guest
download leaves the content unit's `downloads` statistic at 0 — no content
statistic is incremented there. -/
theorem claim_C4_counterexample :
    ((runDownload ⟨[], [], [⟨1, "s", "T", 0⟩], [⟨1, "c", "1", some ["u"]⟩]⟩
        ⟨none, some "1.2.3.4", "r", "s", "c"⟩ (fun _ => true) true).2.1.response
      = .pdf "application/pdf" (contentDisposition "T" "1") ["u"]) ∧
    ((runDownload ⟨[], [], [⟨1, "s", "T", 0⟩], [⟨1, "c", "1", some ["u"]⟩]⟩
        ⟨none, some "1.2.3.4", "r", "s", "c"⟩ (fun _ => true) true).2.2 = 1) ∧
    ((runDownload ⟨[], [], [⟨1, "s", "T", 0⟩], [⟨1, "c", "1", some ["u"]⟩]⟩
        ⟨none, some "1.2.3.4", "r", "s", "c"⟩ (fun _ => true) true).1.mangas
      = [⟨1, "s", "T", 0⟩]) := by decide

/-- C4 amended: the routes/api.js finish handler never touches any content
unit statistic, while the second unnamed part's finish handler, whenever it
runs after a finished stream, increments the downloaded manga's `downloads`
statistic by exactly 1 regardless of bucket. -/
theorem claim_C4_amended_manga_counter (w : World) (req : Request)
    (ok : String → Bool) (fin : Bool) :
    (runDownload w req ok fin).1.mangas = w.mangas ∧
    (∀ ctx mid, fin = true →
      (downloadHandlerP1 w req ok).finishCb = some (ctx, mid) →
      (runDownloadP1 w req ok fin).1.mangas = incMangaDownloads w.mangas mid ∧
      findMangaById (runDownloadP1 w req ok fin).1.mangas mid
        = (findMangaById w.mangas mid).map
            (fun m => { m with downloads := m.downloads + 1 }) ∧
      (∃ manga, findMangaBySlug w.mangas req.slug = some manga ∧
        mid = manga.id)) := by
  constructor
  · rcases hcb : (downloadHandler w req ok).finishCb with _ | ⟨ctx, mid⟩
    · rw [runDownload_none hcb]
    · cases fin
      · rw [runDownload_some_false hcb]
      · rw [runDownload_some_true hcb]
        exact finishCommit_mangas w ctx
  · intro ctx mid hf hcb
    subst hf
    have hmg : (runDownloadP1 w req ok true).1.mangas
        = incMangaDownloads w.mangas mid := by
      rw [runDownloadP1_some_true hcb]
      show (finishCommitP1 w ctx mid).mangas = _
      simp [finishCommitP1, finishCommit_mangas]
    exact ⟨hmg,
      by rw [hmg]; exact findMangaById_incMangaDownloads w.mangas mid,
      downloadHandlerP1_finishCb_mid hcb⟩

/-- Witness for C4's amended statement: the same finished guest download
leaves `downloads` untouched under the routes/api.js route and bumps it from
5 to 6 under the second unnamed part's route. -/
theorem claim_C4_amended_witness :
    (runDownload ⟨[], [], [⟨1, "s", "T", 5⟩], [⟨1, "c", "1", some ["u"]⟩]⟩
        ⟨none, some "1.2.3.4", "r", "s", "c"⟩ (fun _ => true) true).1.mangas
      = [⟨1, "s", "T", 5⟩] ∧
    findMangaById (runDownloadP1
        ⟨[], [], [⟨1, "s", "T", 5⟩], [⟨1, "c", "1", some ["u"]⟩]⟩
        ⟨none, some "1.2.3.4", "r", "s", "c"⟩ (fun _ => true) true).1.mangas 1
      = some ⟨1, "s", "T", 6⟩ := by
  have h := claim_C4_amended_manga_counter
    ⟨[], [], [⟨1, "s", "T", 5⟩], [⟨1, "c", "1", some ["u"]⟩]⟩
    ⟨none, some "1.2.3.4", "r", "s", "c"⟩ (fun _ => true) true
  refine ⟨h.1, ?_⟩
  have h2 := (h.2 (.guest "1.2.3.4") 1 rfl (by decide)).2.1
  rw [h2]
  decide

/-- C10: under sequential execution, one request changes each guest-counter
key either not at all or by exactly +1, an increment happens only when the
classifier admitted the guest with that exact key and its counter strictly
below 10, no key is ever removed or decreased, and therefore every stored
counter value stays at most 10 across any request sequence. -/
theorem claim_C10_guest_counter_invariant (w : World) (req : Request)
    (ok : String → Bool) (fin : Bool) (reqs : List DlReq) :
    (∀ k, gcCount (runDownload w req ok fin).1.guestCache k
        = gcCount w.guestCache k ∨
      (gcCount (runDownload w req ok fin).1.guestCache k
          = gcCount w.guestCache k + 1 ∧
        gcCount w.guestCache k < 10 ∧
        (checkDownloadLimit w req).1 = .allowGuest k)) ∧
    (∀ k v, gcGet w.guestCache k = some v →
      ∃ v', gcGet (runDownload w req ok fin).1.guestCache k = some v' ∧
        v ≤ v') ∧
    ((∀ p ∈ w.guestCache, p.2 ≤ 10) →
      ∀ p ∈ (runSeq w reqs).guestCache, p.2 ≤ 10) := by
  refine ⟨?_, ?_, fun hb => runSeq_preserves_bounded reqs w hb⟩
  · intro k
    rcases runDownload_guestCache w req ok fin with h | ⟨ip, hcls, hlt, h⟩
    · left; rw [h]
    · by_cases hk : k = ip
      · subst hk
        right
        refine ⟨?_, hlt, hcls⟩
        rw [h]
        simp [gcCount, gcGet_gcSet_self]
      · left
        rw [h]
        simp [gcCount, gcGet_gcSet_ne _ _ _ _ hk]
  · intro k v hv
    rcases runDownload_guestCache w req ok fin with h | ⟨ip, hcls, hlt, h⟩
    · exact ⟨v, by rw [h]; exact hv, le_refl v⟩
    · by_cases hk : k = ip
      · subst hk
        refine ⟨gcCount w.guestCache k + 1, ?_, ?_⟩
        · rw [h]
          exact gcGet_gcSet_self w.guestCache k (gcCount w.guestCache k + 1)
        · have hvv : gcCount w.guestCache k = v := by simp [gcCount, hv]
          omega
      · exact ⟨v, by rw [h, gcGet_gcSet_ne _ _ _ _ hk]; exact hv, le_refl v⟩

/-- Witness for C10: starting from a cache holding 3 for "1.2.3.4", one
finished guest download raises that key to 4 and keeps every stored counter
within the bound after a sequential run. -/
theorem claim_C10_witness :
    gcCount (runDownload
        ⟨[], [("1.2.3.4", 3)], [⟨1, "s", "T", 0⟩], [⟨1, "c", "1", some ["u"]⟩]⟩
        ⟨none, some "1.2.3.4", "r", "s", "c"⟩ (fun _ => true)
        true).1.guestCache "1.2.3.4"
      ≤ gcCount [("1.2.3.4", 3)] "1.2.3.4" + 1 ∧
    gcCount (runSeq
        ⟨[], [("1.2.3.4", 3)], [⟨1, "s", "T", 0⟩], [⟨1, "c", "1", some ["u"]⟩]⟩
        [⟨⟨none, some "1.2.3.4", "r", "s", "c"⟩, fun _ => true, true⟩]
      ).guestCache "1.2.3.4" ≤ 10 := by
  have h := claim_C10_guest_counter_invariant
    ⟨[], [("1.2.3.4", 3)], [⟨1, "s", "T", 0⟩], [⟨1, "c", "1", some ["u"]⟩]⟩
    ⟨none, some "1.2.3.4", "r", "s", "c"⟩ (fun _ => true) true
    [⟨⟨none, some "1.2.3.4", "r", "s", "c"⟩, fun _ => true, true⟩]
  constructor
  · have hconv : gcCount
        (⟨[], [("1.2.3.4", 3)], [⟨1, "s", "T", 0⟩],
          [⟨1, "c", "1", some ["u"]⟩]⟩ : World).guestCache "1.2.3.4"
        = gcCount [("1.2.3.4", 3)] "1.2.3.4" := rfl
    rcases h.1 "1.2.3.4" with h1 | ⟨h1, _, _⟩ <;> rw [hconv] at h1 <;> omega
  · have hb := h.2.2 (by decide)
    have hc : gcGet (runSeq
        ⟨[], [("1.2.3.4", 3)], [⟨1, "s", "T", 0⟩], [⟨1, "c", "1", some ["u"]⟩]⟩
        [⟨⟨none, some "1.2.3.4", "r", "s", "c"⟩, fun _ => true, true⟩]
      ).guestCache "1.2.3.4" = some 4 := by decide
    have := hb _ (gcGet_mem hc)
    simp [gcCount, hc]

end Gomaner
